import Mathlib

/-
Shallow embedding of `src/main.py`, the DTF retrieval-augmented-generation chat
backend: a FastAPI service with a health endpoint (`GET /`), a streaming chat
endpoint (`POST /chat`) guarded by an `asyncio.Semaphore(2)` admission gate,
and a one-time startup phase that builds or loads a vector index.

External collaborators (embedding model, vector index, document reader,
sentence splitter, LLM) are modelled as abstract fallible operations supplied
through an environment record; the glue logic of `main.py` is translated
directly.
-/

namespace Dtf

/-! ## Fixed configuration constants (main.py lines 16-19) -/

def PDF_DIR : String := "./data"

def STORAGE_DIR : String := "./storage"

def OLLAMA_MODEL : String := "gemma2:2b"

/-! ## Fixed user-visible strings -/

/-- Degraded-mode error text yielded by `index_error_stream` (main.py line 97). -/
def indexErrorMsg : String := "❌ Error: The document index is not available."

/-- Validation error text yielded by `validation_error_stream` (main.py line 107). -/
def validationErrorMsg : String := "⚠️ Please ask a valid question."

/-- Apology text yielded by `event_stream` on a caught exception (main.py line 123). -/
def streamErrorMsg : String := "Sorry, an error occurred while processing your request."

/-- Static health payload of `root` (main.py line 88). -/
def rootMsg : String := "Backend is running. Auth: Zenoharsh"

/-- The fixed question-answering prompt template string (main.py lines 62-71). -/
def qaPromptTmplStr : String :=
  "You are a professional AI assistant for the Dattopant Thengadi Foundation. Your role is to answer questions accurately and concisely based ONLY on the provided context documents.\nIf the context does not contain the answer, state that you do not have enough information.\n---------------------\nCONTEXT: {context_str}\n---------------------\nQUESTION: {query_str}\nANSWER (be clear and helpful):"

/-! ## Startup and index provisioning (main.py lines 39-58)

The index, the documents and the nodes live in external libraries; we model an
index as an opaque identifier (`Nat`), documents and nodes as strings, and the
external operations as fallible functions in an environment record. `Except`
models a Python exception raised by the operation. -/

/-- Abstract environment for the startup phase: existence of the storage
directory and the behaviour of the external indexing operations. -/
structure Env where
  storageExists : Bool
  readDocuments : Except String (List String)
  getNodesFromDocuments : Nat → Nat → List String → Except String (List String)
  buildIndex : List String → Except String Nat
  persistIndex : Nat → Except String Unit
  loadIndexFromStorage : Except String Nat

/-- Observable record of which startup actions ran: whether documents were
read, with which (chunk size, overlap) the splitter was constructed, whether
the built index was persisted, and whether the load-from-storage path ran. -/
structure StartupTrace where
  docsRead : Bool
  splitterParams : Option (Nat × Nat)
  persisted : Bool
  loadedFromStorage : Bool
  deriving DecidableEq, Repr

/-- Embedding of the `try/except` index setup block (main.py lines 39-58).
If the storage directory does not exist: construct a
`SentenceSplitter(chunk_size=350, chunk_overlap=35)`, read the documents,
split them into nodes, build the index and persist it. Otherwise load the
persisted index. Any raised exception is caught and leaves `index = None`
(modelled as `none`); the function is total, so the process never crashes. -/
def startup (env : Env) : Option Nat × StartupTrace :=
  if !env.storageExists then
    match env.readDocuments with
    | .error _ => (none, ⟨true, some (350, 35), false, false⟩)
    | .ok documents =>
      match env.getNodesFromDocuments 350 35 documents with
      | .error _ => (none, ⟨true, some (350, 35), false, false⟩)
      | .ok nodes =>
        match env.buildIndex nodes with
        | .error _ => (none, ⟨true, some (350, 35), false, false⟩)
        | .ok idx =>
          match env.persistIndex idx with
          | .error _ => (none, ⟨true, some (350, 35), false, false⟩)
          | .ok _ => (some idx, ⟨true, some (350, 35), true, false⟩)
  else
    match env.loadIndexFromStorage with
    | .error _ => (none, ⟨false, none, false, true⟩)
    | .ok idx => (some idx, ⟨false, none, false, true⟩)

/-! ## Query engine configuration (main.py lines 74-83) -/

/-- Configuration the query engine is constructed with by
`index.as_query_engine(llm=llm, streaming=True, text_qa_template=qa_prompt_tmpl,
similarity_top_k=3)` (main.py lines 76-81). -/
structure QueryEngineConfig where
  streaming : Bool
  textQaTemplate : String
  similarityTopK : Nat
  index : Nat
  deriving DecidableEq, Repr

/-- The one engine construction call of main.py lines 76-81. -/
def mkQueryEngine (idx : Nat) : QueryEngineConfig :=
  ⟨true, qaPromptTmplStr, 3, idx⟩

/-- Embedding of `if index: query_engine = index.as_query_engine(...) else:
query_engine = None` (main.py lines 74-83); evaluated once at startup. -/
def setupQueryEngine (idx : Option Nat) : Option QueryEngineConfig :=
  idx.map mkQueryEngine

/-- The whole startup pipeline: index provisioning followed by the one-time
query engine construction. -/
def processEngine (env : Env) : Option QueryEngineConfig :=
  setupQueryEngine (startup env).1

/-! ## Health endpoint (main.py lines 86-88) -/

/-- Response of `GET /`: FastAPI serialises the returned dict with status 200. -/
structure RootResponse where
  status : Nat
  message : String
  deriving DecidableEq, Repr

/-- Embedding of the `root` handler (main.py lines 86-88). It takes the
process state (the query engine, or `none` in degraded mode) only to express
that its result does not depend on it; the handler body reads no state. -/
def root (_queryEngine : Option QueryEngineConfig) : RootResponse :=
  ⟨200, rootMsg⟩

/-! ## Chat endpoint, per-request input/output behaviour (main.py lines 93-125)

The JSON body is modelled by its only consulted field: `some m` when the
`message` key is present with string value `m`, `none` when absent
(`body.get("message", "")`). The query engine behaviour for one request is an
`EngineOutcome`: the tokens produced before the generator is exhausted or
raises, and whether it raises (`query_engine.query` itself raising is the case
`tokens = []`, `fails = true`). -/

/-- Outcome of obtaining and pulling tokens from the query engine for one
question: the tokens yielded before completion or failure, and whether an
exception was raised. -/
structure EngineOutcome where
  tokens : List String
  fails : Bool

/-- Embedding of `body.get("message", "")` (main.py line 102). -/
def getMessage (body : Option String) : String :=
  body.getD ""

/-- Whitespace characters removed by Python `str.strip()` (restricted to the
ASCII whitespace class; Unicode space classes are outside the model). -/
def isStripChar (c : Char) : Bool :=
  c = ' ' || c = '\t' || c = '\n' || c = '\r' || c = '\x0B' || c = '\x0C'

/-- Embedding of Python `str.strip()`: remove leading and trailing whitespace. -/
def strip (s : String) : String :=
  ⟨List.reverse (List.dropWhile isStripChar
    (List.reverse (List.dropWhile isStripChar s.data)))⟩

/-- Embedding of the validation test `not question or len(question.strip()) < 2`
(main.py line 105): a falsy (empty) string, or fewer than 2 characters after
trimming surrounding whitespace. -/
def invalidMessage (question : String) : Bool :=
  question.isEmpty || decide ((strip question).length < 2)

/-- Embedding of the `event_stream` generator for a valid question (main.py
lines 114-123): the tokens are yielded one by one; if an exception is raised
while obtaining the streaming response or pulling tokens, it is caught and the
single fixed apology message is yielded, after which the generator ends
normally. -/
def eventStream (outcome : EngineOutcome) : List String :=
  if outcome.fails then outcome.tokens ++ [streamErrorMsg] else outcome.tokens

/-- Observable response of one `POST /chat` request: HTTP status, media type,
the full content of the token stream, and instrumentation recording whether
the body was parsed, whether validation ran, and whether the query engine was
invoked. `StreamingResponse` uses the default status code 200. -/
structure ChatResponse where
  status : Nat
  mediaType : String
  stream : List String
  bodyParsed : Bool
  validationRan : Bool
  engineQueried : Bool
  deriving DecidableEq, Repr

/-- Embedding of the `chat` handler (main.py lines 93-125) as a function of
the process state (query engine option), the request body, and the engine
behaviour. Degraded mode returns the fixed error stream before the body is
read or validated; otherwise the message is extracted, validated, and either
the fixed validation error or the event stream is returned. -/
def chat (queryEngine : Option QueryEngineConfig) (body : Option String)
    (engine : String → EngineOutcome) : ChatResponse :=
  match queryEngine with
  | none => ⟨200, "text/event-stream", [indexErrorMsg], false, false, false⟩
  | some _ =>
    let question := getMessage body
    if invalidMessage question then
      ⟨200, "text/event-stream", [validationErrorMsg], true, true, false⟩
    else
      ⟨200, "text/event-stream", eventStream (engine question), true, true, true⟩

/-! ## Concurrency model of the admission gate (main.py lines 92-125)

`semaphore = asyncio.Semaphore(2)` gates the handler body. Per the code, one
chat request of a healthy process passes through these phases:

* `start`: request received, handler entered, `query_engine` found truthy;
* `gateWait`: suspended on `async with semaphore` (line 100);
* `handler`: the slot is held; the body is parsed, validated, and the
  `StreamingResponse` is constructed and returned (lines 101-125);
* `streaming`: the server consumes the `event_stream` generator, which calls
  `query_engine.query` and yields the tokens. The `return` on line 125 exited
  the `async with` block, so the semaphore slot was already released when this
  phase begins: generation and token streaming run outside the gate;
* `doneOk` / `doneInvalid` / `doneDegraded`: the response stream has closed.

In degraded mode the handler returns on line 98, before `async with semaphore`,
so a degraded request moves directly from `start` to `doneDegraded`. -/

/-- Phase of one in-flight `POST /chat` request. -/
inductive Phase where
  | start
  | gateWait
  | handler
  | streaming
  | doneOk
  | doneInvalid
  | doneDegraded
  deriving DecidableEq, Repr

/-- Number of semaphore slots currently held: the requests whose handler body
(between entering `async with semaphore` and the handler returning) is active. -/
def holders (s : List Phase) : Nat :=
  s.countP (fun p => decide (p = Phase.handler))

/-- Number of requests currently executing their generation/streaming phase. -/
def streamingCount (s : List Phase) : Nat :=
  s.countP (fun p => decide (p = Phase.streaming))

/-- Interleaving semantics of concurrent chat requests on the single event
loop. The state is the list of phases of the requests; `msgs` gives the
message of each request and `engineAvailable` whether a query engine was
constructed at startup. Each step is one atomic progress of one request, as
dictated by main.py lines 93-125:

* `degradedReturn`: no engine; the handler returns the fixed error stream
  without touching the semaphore (lines 95-98);
* `requestGate`: an engine exists; the request reaches `async with semaphore`
  (line 100);
* `acquireGate`: a slot is free (fewer than 2 holders), the request acquires
  it (capacity of `asyncio.Semaphore(2)`, line 92);
* `returnInvalid`: the message fails validation; the handler returns the fixed
  validation stream, releasing the slot on return (lines 105-108);
* `returnValidResponse`: the message passes validation; the handler returns
  the `StreamingResponse` (line 125), releasing the slot on return, and the
  generation/streaming phase follows outside the gate;
* `finishStreaming`: the event stream is exhausted and the response closes. -/
inductive Step (engineAvailable : Bool) (msgs : List String) :
    List Phase → List Phase → Prop where
  | degradedReturn (s : List Phase) (i : Nat)
      (hea : engineAvailable = false)
      (hp : s.get? i = some Phase.start) :
      Step engineAvailable msgs s (s.set i Phase.doneDegraded)
  | requestGate (s : List Phase) (i : Nat)
      (hea : engineAvailable = true)
      (hp : s.get? i = some Phase.start) :
      Step engineAvailable msgs s (s.set i Phase.gateWait)
  | acquireGate (s : List Phase) (i : Nat)
      (hp : s.get? i = some Phase.gateWait)
      (hcap : holders s < 2) :
      Step engineAvailable msgs s (s.set i Phase.handler)
  | returnInvalid (s : List Phase) (i : Nat)
      (hp : s.get? i = some Phase.handler)
      (hv : invalidMessage (msgs.getD i "") = true) :
      Step engineAvailable msgs s (s.set i Phase.doneInvalid)
  | returnValidResponse (s : List Phase) (i : Nat)
      (hp : s.get? i = some Phase.handler)
      (hv : invalidMessage (msgs.getD i "") = false) :
      Step engineAvailable msgs s (s.set i Phase.streaming)
  | finishStreaming (s : List Phase) (i : Nat)
      (hp : s.get? i = some Phase.streaming) :
      Step engineAvailable msgs s (s.set i Phase.doneOk)

/-- Initial state: every request received, none progressed. -/
def initState (msgs : List String) : List Phase :=
  List.replicate msgs.length Phase.start

/-- A state reachable by some interleaving of the requests. -/
def Reaches (engineAvailable : Bool) (msgs : List String) (s : List Phase) : Prop :=
  Relation.ReflTransGen (Step engineAvailable msgs) (initState msgs) s

/-! ## Claim theorems -/

/-- C2: when no index was loaded at startup (query engine `none`), every
`POST /chat` request, whatever its body and whatever the engine would do,
returns a status-200 stream whose entire content is exactly the fixed
degraded-mode error text, with no body parsing, no validation and no engine
invocation. -/
theorem chat_degraded_fixed_stream (body : Option String)
    (engine : String → EngineOutcome) :
    chat none body engine =
      ⟨200, "text/event-stream", [indexErrorMsg], false, false, false⟩ := rfl

/-- C5: for every process state and request body, `POST /chat` responds with
HTTP status 200 and media type `text/event-stream`; every failure class
(degraded mode, validation, generation) is reported in-band on the stream,
never through an HTTP error status. -/
theorem chat_always_status_200 (queryEngine : Option QueryEngineConfig)
    (body : Option String) (engine : String → EngineOutcome) :
    (chat queryEngine body engine).status = 200 ∧
    (chat queryEngine body engine).mediaType = "text/event-stream" := by
  cases queryEngine with
  | none => exact ⟨rfl, rfl⟩
  | some qe =>
    simp only [chat]
    split <;> exact ⟨rfl, rfl⟩

/-- C7: `GET /` always returns status 200 with the same static payload, and
its result is independent of whether an index (hence a query engine) was
loaded; the handler is a pure function of no effectful inputs. -/
theorem root_health_static (qe qe' : Option QueryEngineConfig) :
    root qe = ⟨200, rootMsg⟩ ∧ root qe = root qe' :=
  ⟨rfl, rfl⟩

/-- C9: a body without the `message` key yields the empty string via
`body.get("message", "")`, and the request is handled as a validation error
(the fixed validation-error text is streamed, the engine is not invoked); the
total function raises no exception. -/
theorem chat_missing_message_defaults (qe : QueryEngineConfig)
    (engine : String → EngineOutcome) :
    getMessage none = "" ∧
    chat (some qe) none engine =
      ⟨200, "text/event-stream", [validationErrorMsg], true, true, false⟩ :=
  ⟨rfl, rfl⟩

/-- C3: a message that is empty, or shorter than 2 characters after trimming
surrounding whitespace, makes `POST /chat` stream exactly the fixed
validation-error text, and the query engine is never invoked. -/
theorem chat_short_message_validation (qe : QueryEngineConfig)
    (body : Option String) (engine : String → EngineOutcome)
    (h : getMessage body = "" ∨ (strip (getMessage body)).length < 2) :
    (chat (some qe) body engine).stream = [validationErrorMsg] ∧
    (chat (some qe) body engine).engineQueried = false := by
  have hinv : invalidMessage (getMessage body) = true := by
    rcases h with h | h
    · simp only [invalidMessage]
      rw [h]
      decide
    · simp [invalidMessage, h]
  simp [chat, hinv]

/-- Witness for C3 at the concrete body `{"message": "a"}`. -/
theorem chat_short_message_validation_witness :
    (chat (some (mkQueryEngine 0)) (some "a") (fun _ => ⟨[], false⟩)).stream =
      [validationErrorMsg] ∧
    (chat (some (mkQueryEngine 0)) (some "a") (fun _ => ⟨[], false⟩)).engineQueried =
      false :=
  chat_short_message_validation (mkQueryEngine 0) (some "a") (fun _ => ⟨[], false⟩)
    (Or.inr (by decide))

/-- C4: for a valid message, if an exception is raised while obtaining or
pulling tokens from the query engine, the stream is exactly the tokens already
yielded followed by the one fixed apology message, and the already-yielded
tokens are not retracted (they remain an initial segment of the stream). -/
theorem chat_engine_error_apology (qe : QueryEngineConfig) (body : Option String)
    (engine : String → EngineOutcome)
    (hvalid : invalidMessage (getMessage body) = false)
    (hfail : (engine (getMessage body)).fails = true) :
    (chat (some qe) body engine).stream =
      (engine (getMessage body)).tokens ++ [streamErrorMsg] ∧
    ∃ rest, (chat (some qe) body engine).stream =
      (engine (getMessage body)).tokens ++ rest := by
  have hs : (chat (some qe) body engine).stream =
      (engine (getMessage body)).tokens ++ [streamErrorMsg] := by
    simp [chat, hvalid, eventStream, hfail]
  exact ⟨hs, [streamErrorMsg], hs⟩

/-- Witness for C4 at a concrete valid request whose engine yields two tokens
and then raises. -/
theorem chat_engine_error_apology_witness :
    (chat (some (mkQueryEngine 1)) (some "hello")
        (fun _ => ⟨["The", " answer"], true⟩)).stream =
      ((fun (_ : String) => EngineOutcome.mk ["The", " answer"] true)
        (getMessage (some "hello"))).tokens ++ [streamErrorMsg] ∧
    ∃ rest, (chat (some (mkQueryEngine 1)) (some "hello")
        (fun _ => ⟨["The", " answer"], true⟩)).stream =
      ((fun (_ : String) => EngineOutcome.mk ["The", " answer"] true)
        (getMessage (some "hello"))).tokens ++ rest :=
  chat_engine_error_apology (mkQueryEngine 1) (some "hello")
    (fun _ => ⟨["The", " answer"], true⟩) (by decide) rfl

/-- C6: on process start, if no persisted state exists the documents are read,
split with chunk size 350 and overlap 35, indexed and persisted; if the
storage path exists the persisted index is loaded directly with no document
reading and no splitter construction; and any failure in either path leaves
the process alive in degraded mode with `index = none` (the third conjunct:
an index is produced only by a fully successful path, every failing run
yields `none`; `startup` is a total function, so no exception escapes). -/
theorem startup_behavior (env : Env) :
    (env.storageExists = true →
      (startup env).2.docsRead = false ∧
      (startup env).2.splitterParams = none ∧
      (∀ idx, env.loadIndexFromStorage = .ok idx →
        startup env = (some idx, ⟨false, none, false, true⟩)) ∧
      (∀ e, env.loadIndexFromStorage = .error e → (startup env).1 = none)) ∧
    (env.storageExists = false →
      ∀ documents nodes idx,
        env.readDocuments = .ok documents →
        env.getNodesFromDocuments 350 35 documents = .ok nodes →
        env.buildIndex nodes = .ok idx →
        env.persistIndex idx = .ok () →
        startup env = (some idx, ⟨true, some (350, 35), true, false⟩)) ∧
    (∀ idx, (startup env).1 = some idx →
      (env.storageExists = true ∧ env.loadIndexFromStorage = .ok idx) ∨
      (env.storageExists = false ∧ ∃ documents nodes,
        env.readDocuments = .ok documents ∧
        env.getNodesFromDocuments 350 35 documents = .ok nodes ∧
        env.buildIndex nodes = .ok idx ∧
        env.persistIndex idx = .ok ())) := by
  obtain ⟨se, rd, gn, bi, pr, li⟩ := env
  refine ⟨?_, ?_, ?_⟩
  · rintro rfl
    refine ⟨?_, ?_, ?_, ?_⟩
    · cases li <;> simp [startup]
    · cases li <;> simp [startup]
    · intro idx hi
      have hli : li = Except.ok idx := hi
      simp [startup, hli]
    · intro e he
      have hli : li = Except.error e := he
      simp [startup, hli]
  · rintro rfl documents nodes idx hrd hgn hbi hpr
    have h1 : rd = Except.ok documents := hrd
    have h2 : gn 350 35 documents = Except.ok nodes := hgn
    have h3 : bi nodes = Except.ok idx := hbi
    have h4 : pr idx = Except.ok () := hpr
    simp [startup, h1, h2, h3, h4]
  · intro idx h
    cases se with
    | true =>
      left
      cases li with
      | error e => simp [startup] at h
      | ok j =>
        simp [startup] at h
        subst h
        exact ⟨rfl, rfl⟩
    | false =>
      right
      cases rd with
      | error e => simp [startup] at h
      | ok documents =>
        cases hgn : gn 350 35 documents with
        | error e => simp [startup, hgn] at h
        | ok nodes =>
          cases hbi : bi nodes with
          | error e => simp [startup, hgn, hbi] at h
          | ok j =>
            cases hpr : pr j with
            | error e => simp [startup, hgn, hbi, hpr] at h
            | ok u =>
              simp [startup, hgn, hbi, hpr] at h
              subst h
              cases u
              exact ⟨rfl, documents, nodes, rfl, hgn, hbi, hpr⟩

/-- Environment in which no storage exists and the whole build pipeline
succeeds with index id 7. -/
def envBuildOk : Env :=
  ⟨false, .ok ["doc one"], fun _ _ documents => .ok documents, fun _ => .ok 7,
    fun _ => .ok (), .error "no storage"⟩

/-- Witness for C6 on a concrete environment taking the build path. -/
theorem startup_behavior_witness :
    startup envBuildOk = (some 7, ⟨true, some (350, 35), true, false⟩) :=
  (startup_behavior envBuildOk).2.1 rfl ["doc one"] ["doc one"] 7 rfl rfl rfl rfl

set_option maxRecDepth 8192 in
/-- C8: when an index was loaded at startup, the query engine is constructed
once, with response streaming enabled, the fixed prompt template, and
retrieval breadth `similarity_top_k = 3`; and the template contains both the
instruction to answer only from the provided context documents and the
instruction to admit insufficient information. -/
theorem query_engine_configuration (env : Env) (idx : Nat)
    (h : (startup env).1 = some idx) :
    processEngine env = some ⟨true, qaPromptTmplStr, 3, idx⟩ ∧
    (∃ a b, qaPromptTmplStr =
      a ++ "answer questions accurately and concisely based ONLY on the provided context documents" ++ b) ∧
    (∃ a b, qaPromptTmplStr =
      a ++ "If the context does not contain the answer, state that you do not have enough information" ++ b) := by
  refine ⟨by simp [processEngine, h, setupQueryEngine, mkQueryEngine], ?_, ?_⟩
  · exact ⟨"You are a professional AI assistant for the Dattopant Thengadi Foundation. Your role is to ",
      ".\nIf the context does not contain the answer, state that you do not have enough information.\n---------------------\nCONTEXT: {context_str}\n---------------------\nQUESTION: {query_str}\nANSWER (be clear and helpful):",
      rfl⟩
  · exact ⟨"You are a professional AI assistant for the Dattopant Thengadi Foundation. Your role is to answer questions accurately and concisely based ONLY on the provided context documents.\n",
      ".\n---------------------\nCONTEXT: {context_str}\n---------------------\nQUESTION: {query_str}\nANSWER (be clear and helpful):",
      rfl⟩

/-- Environment in which storage exists and loading succeeds with index id 5. -/
def envLoadOk : Env :=
  ⟨true, .error "unused", fun _ _ _ => .error "unused", fun _ => .error "unused",
    fun _ => .error "unused", .ok 5⟩

/-- Witness for C8 on a concrete environment that loads index 5 from storage. -/
theorem query_engine_configuration_witness :
    processEngine envLoadOk = some ⟨true, qaPromptTmplStr, 3, 5⟩ ∧
    (∃ a b, qaPromptTmplStr =
      a ++ "answer questions accurately and concisely based ONLY on the provided context documents" ++ b) ∧
    (∃ a b, qaPromptTmplStr =
      a ++ "If the context does not contain the answer, state that you do not have enough information" ++ b) :=
  query_engine_configuration envLoadOk 5 rfl

/-- Helper: an element neither in a list nor equal to the written value is
not in the updated list. -/
theorem not_mem_set {α : Type} {a b : α} {l : List α} {i : Nat}
    (hl : a ∉ l) (hb : a ≠ b) : a ∉ l.set i b := fun hmem =>
  (List.mem_or_eq_of_mem_set hmem).elim hl hb

/-- C10: in degraded mode (no query engine) a chat request never waits on,
never acquires and never holds an admission-gate slot: in every reachable
state of every interleaving, no request is in the `gateWait` or `handler`
phase and the number of held semaphore slots is 0; the handler returns its
fixed error stream before the `async with semaphore` line. -/
theorem degraded_never_touches_gate (msgs : List String) (s : List Phase)
    (h : Reaches false msgs s) :
    Phase.gateWait ∉ s ∧ Phase.handler ∉ s ∧ holders s = 0 := by
  have key : Phase.gateWait ∉ s ∧ Phase.handler ∉ s := by
    induction h with
    | refl =>
      constructor <;> intro hmem <;>
        simpa using List.eq_of_mem_replicate hmem
    | tail hsteps hstep ih =>
      cases hstep with
      | degradedReturn i hea hp =>
        exact ⟨not_mem_set ih.1 (by decide), not_mem_set ih.2 (by decide)⟩
      | requestGate i hea hp => simp at hea
      | acquireGate i hp hcap => exact absurd (List.get?_mem hp) ih.1
      | returnInvalid i hp hv => exact absurd (List.get?_mem hp) ih.2
      | returnValidResponse i hp hv => exact absurd (List.get?_mem hp) ih.2
      | finishStreaming i hp =>
        exact ⟨not_mem_set ih.1 (by decide), not_mem_set ih.2 (by decide)⟩
  refine ⟨key.1, key.2, ?_⟩
  refine List.countP_eq_zero.mpr ?_
  intro p hp hd
  simp only [decide_eq_true_eq] at hd
  exact key.2 (hd ▸ hp)

/-- Witness for C10 at the initial state of a one-request degraded system. -/
theorem degraded_never_touches_gate_witness :
    Phase.gateWait ∉ ([Phase.start] : List Phase) ∧
    Phase.handler ∉ ([Phase.start] : List Phase) ∧
    holders [Phase.start] = 0 :=
  degraded_never_touches_gate ["hi"] [Phase.start] Relation.ReflTransGen.refl

/-- C1 is refuted by the code: the handler returns the `StreamingResponse`
from inside the `async with semaphore` block, so the slot is released when
the handler returns, before the event stream is consumed. Three concurrent
valid requests can therefore all reach their generation/streaming phase
simultaneously: the state in which all three requests stream at once is
reachable, and it has more than 2 requests in the generation phase, with none
of them completed. -/
theorem three_valid_requests_all_streaming :
    Reaches true ["hello", "hello", "hello"]
      [Phase.streaming, Phase.streaming, Phase.streaming] ∧
    2 < streamingCount [Phase.streaming, Phase.streaming, Phase.streaming] := by
  refine ⟨?_, by decide⟩
  refine Relation.ReflTransGen.head (Step.requestGate _ 0 rfl rfl) ?_
  refine Relation.ReflTransGen.head (Step.acquireGate _ 0 rfl (by decide)) ?_
  refine Relation.ReflTransGen.head (Step.returnValidResponse _ 0 rfl (by decide)) ?_
  refine Relation.ReflTransGen.head (Step.requestGate _ 1 rfl rfl) ?_
  refine Relation.ReflTransGen.head (Step.acquireGate _ 1 rfl (by decide)) ?_
  refine Relation.ReflTransGen.head (Step.returnValidResponse _ 1 rfl (by decide)) ?_
  refine Relation.ReflTransGen.head (Step.requestGate _ 2 rfl rfl) ?_
  refine Relation.ReflTransGen.head (Step.acquireGate _ 2 rfl (by decide)) ?_
  refine Relation.ReflTransGen.head (Step.returnValidResponse _ 2 rfl (by decide)) ?_
  exact Relation.ReflTransGen.refl

end Dtf
